import Mathlib

/-!
# Verification of the PetFinder preprocessing-layers notebook

Shallow embedding of `notebook/preprocessing_layers.ipynb` (the only source
file of the repository).  The notebook is a linear script: it loads the
PetFinder CSV into a pandas dataframe, derives a binary `target` column,
drops `AdoptionSpeed` and `Description`, splits the frame into
train/validation/test, wraps each split in a `tf.data` pipeline
(`df_to_dataset`), adapts Keras preprocessing layers
(`Normalization`, `StringLookup`, `IntegerLookup`, `CategoryEncoding`),
builds and trains a small dense classifier, evaluates it, saves and reloads
it, and runs one `predict` call.

Framework layers (pandas, tf.data, Keras preprocessing, SavedModel) are
modelled by Lean definitions faithful to their documented semantics; the
notebook's own functions (`df_to_dataset`, `get_normalization_layer`,
`get_category_encoding_layer`) and its top-level cell sequence are
translated cell by cell.  Numeric values are modelled over `ℚ` (the
idealised arithmetic of the float code).
-/

namespace Notebook

/-- A cell value of the dataframe: the CSV has string and integer columns
(numeric values are kept as rationals so normalization can divide). -/
inductive Value where
  | str (s : String)
  | int (n : Int)
  | rat (q : ℚ)
  deriving DecidableEq, Repr

/-- The column names occurring in the PetFinder CSV, plus the derived
`target` column. -/
inductive ColName where
  | typeCol | age | breed1 | gender | color1 | color2
  | maturitySize | furLength | vaccinated | sterilized | health
  | fee | photoAmt | adoptionSpeed | description | target
  deriving DecidableEq, Repr

/-- A dataframe row: an association list from column names to cell values
(pandas row, column-keyed). -/
abbrev Row : Type := List (ColName × Value)

/-- Look up a column's cell in a row (pandas `row[col]`). -/
def getCell (r : Row) (c : ColName) : Option Value :=
  List.lookup c r

/-- A pandas dataframe: an ordered list of column names and the rows. -/
structure DataFrame where
  cols : List ColName
  rows : List Row
  deriving DecidableEq, Repr

/-- Pandas `df.copy()`: pandas returns a fresh object with the same contents; on
values it is the identity. -/
def DataFrame.copy (df : DataFrame) : DataFrame := df

/-- Pandas `df[c] = vals` for a per-row computed value (pandas column assignment):
replaces any existing `c` entry and appends the new one; the column list
gains `c` if absent. -/
def DataFrame.setCol (df : DataFrame) (c : ColName) (f : Row → Value) : DataFrame :=
  { cols := if c ∈ df.cols then df.cols else df.cols ++ [c]
    rows := df.rows.map (fun r => (r.filter (fun p => p.1 ≠ c)) ++ [(c, f r)]) }

/-- Pandas `df.drop(columns=cs)`: removes the named columns and their cell data. -/
def DataFrame.drop (df : DataFrame) (cs : List ColName) : DataFrame :=
  { cols := df.cols.filter (fun c => c ∉ cs)
    rows := df.rows.map (fun r => r.filter (fun p => p.1 ∉ cs)) }

/-- Pandas `df.pop(c)`: returns the column's values and the frame without it. -/
def DataFrame.pop (df : DataFrame) (c : ColName) : List (Option Value) × DataFrame :=
  (df.rows.map (fun r => getCell r c), df.drop [c])

/-- Cell 6 of the notebook:
`dataframe['target'] = np.where(dataframe['AdoptionSpeed']==4, 0, 1)`
followed by
`dataframe = dataframe.drop(columns=['AdoptionSpeed', 'Description'])`. -/
def prepare (df : DataFrame) : DataFrame :=
  (df.setCol .target
    (fun r => .int (if getCell r .adoptionSpeed = some (.int 4) then 0 else 1))).drop
    [.adoptionSpeed, .description]

/-- A `tf.data` pipeline, as the notebook builds one: a base
`from_tensor_slices((dict(df), labels))` node with `shuffle`, `batch` and
`prefetch` stages layered on top. -/
inductive DSPipe where
  | tensorSlices (features : List Row) (labels : List (Option Value))
  | shuffle (buffer : Nat) (src : DSPipe)
  | batch (size : Nat) (src : DSPipe)
  | prefetch (size : Nat) (src : DSPipe)
  deriving DecidableEq, Repr

/-- Whether a pipeline contains a `shuffle` stage. -/
def DSPipe.hasShuffle : DSPipe → Bool
  | .tensorSlices _ _ => false
  | .shuffle _ _ => true
  | .batch _ src => src.hasShuffle
  | .prefetch _ src => src.hasShuffle

/-- The base feature rows a pipeline iterates over (shuffle permutes the
stream, batch and prefetch regroup it; the elements are unchanged). -/
def DSPipe.baseRows : DSPipe → List Row
  | .tensorSlices features _ => features
  | .shuffle _ src => src.baseRows
  | .batch _ src => src.baseRows
  | .prefetch _ src => src.baseRows

/-- The stream `dataset.map(lambda x, y: x[name])` followed by iteration: the stream of
the named feature's values. -/
def DSPipe.featureValues (ds : DSPipe) (name : ColName) : List (Option Value) :=
  ds.baseRows.map (fun r => getCell r name)

/-- The notebook's `df_to_dataset` (cell 8):
copies the frame, pops `target` as labels, builds
`tf.data.Dataset.from_tensor_slices((dict(dataframe), labels))`, shuffles
with `buffer_size=len(dataframe)` when `shuffle` is set, batches with
`batch_size`, and prefetches. -/
def df_to_dataset (dataframe : DataFrame) (shuffle : Bool := true)
    (batch_size : Nat := 32) : DSPipe :=
  let dataframe := dataframe.copy
  let popped := dataframe.pop .target
  let labels := popped.1
  let dataframe := popped.2
  let ds := DSPipe.tensorSlices dataframe.rows labels
  let ds := if shuffle then DSPipe.shuffle dataframe.rows.length ds else ds
  let ds := DSPipe.batch batch_size ds
  DSPipe.prefetch batch_size ds

/-- Cell 16: `batch_size = 256`. -/
def finalBatchSize : Nat := 256

/-- Cell 16: `train_ds = df_to_dataset(train, batch_size=batch_size)`. -/
def train_ds (train : DataFrame) : DSPipe :=
  df_to_dataset train true finalBatchSize

/-- Cell 16: `val_ds = df_to_dataset(val, shuffle=False, batch_size=batch_size)`. -/
def val_ds (val : DataFrame) : DSPipe :=
  df_to_dataset val false finalBatchSize

/-- Cell 16: `test_ds = df_to_dataset(test, shuffle=False, batch_size=batch_size)`. -/
def test_ds (test : DataFrame) : DSPipe :=
  df_to_dataset test false finalBatchSize

/-- How often a value occurs in a list (token frequency seen by `adapt`). -/
def countOcc (v : Value) (vs : List Value) : Nat :=
  vs.count v

/-- The distinct values of a stream, first occurrence kept. -/
def uniqueValues : List Value → List Value
  | [] => []
  | v :: vs => if v ∈ uniqueValues vs then uniqueValues vs else v :: uniqueValues vs

/-- Stable insertion (descending by frequency in `vals`) used to order the
adapted vocabulary the way Keras lookup layers do. -/
def insertByCount (vals : List Value) (v : Value) : List Value → List Value
  | [] => [v]
  | w :: ws =>
    if countOcc w vals < countOcc v vals then v :: w :: ws
    else w :: insertByCount vals v ws

/-- Sort values by descending frequency in `vals`. -/
def sortByCountDesc (vals : List Value) : List Value → List Value
  | [] => []
  | v :: vs => insertByCount vals v (sortByCountDesc vals vs)

/-- The state of an adapted Keras lookup layer: the vocabulary, `none` being
the out-of-vocabulary token reserved at index 0. -/
structure LookupLayer where
  vocab : List (Option Value)
  deriving DecidableEq, Repr

/-- Keras `adapt` of a lookup layer on a stream of feature values: the
distinct tokens sorted by descending frequency, preceded by the OOV token,
the whole truncated to `max_tokens` when supplied. -/
def lookupAdapt (vals : List (Option Value)) (maxTokens : Option Nat) : LookupLayer :=
  let seen := vals.filterMap id
  let vocab := none :: (sortByCountDesc seen (uniqueValues seen)).map some
  { vocab := match maxTokens with
             | some m => vocab.take m
             | none => vocab }

/-- Keras `preprocessing.StringLookup(max_tokens=max_tokens)` adapted on a stream:
maps strings from the learned vocabulary to integer indices. -/
def stringLookupAdapt (vals : List (Option Value)) (maxTokens : Option Nat) : LookupLayer :=
  lookupAdapt vals maxTokens

/-- Keras `preprocessing.IntegerLookup(max_tokens=max_tokens)` adapted on a
stream: maps integers from the learned vocabulary to integer indices. -/
def integerLookupAdapt (vals : List (Option Value)) (maxTokens : Option Nat) : LookupLayer :=
  lookupAdapt vals maxTokens

/-- Index of the first occurrence of `v` in a vocabulary list (its length
when absent). -/
def vocabIndex (v : Option Value) : List (Option Value) → Nat
  | [] => 0
  | w :: ws => if w = v then 0 else vocabIndex v ws + 1

/-- Applying an adapted lookup layer: a known token goes to its vocabulary
index, anything else to the OOV index 0. -/
def LookupLayer.lookup (L : LookupLayer) (v : Value) : Nat :=
  if some v ∈ L.vocab then vocabIndex (some v) L.vocab else 0

/-- Keras `index.vocabulary_size()`: the adapted vocabulary length, OOV included. -/
def LookupLayer.vocabularySize (L : LookupLayer) : Nat :=
  L.vocab.length

/-- One-hot vector of length `n` with a 1 at index `i`
(`CategoryEncoding(num_tokens=n)` applied to a scalar index). -/
def oneHot (n i : Nat) : List ℚ :=
  (List.range n).map (fun j => if j = i then 1 else 0)

/-- The notebook's `get_category_encoding_layer` (cell 13): builds a
`StringLookup` when `dtype == 'string'` and an `IntegerLookup` otherwise,
adapts it on `dataset.map(lambda x, y: x[name])`, builds a
`CategoryEncoding` with `num_tokens=index.vocabulary_size()`, and returns
`lambda feature: encoder(index(feature))`. -/
def get_category_encoding_layer (name : ColName) (dataset : DSPipe)
    (dtype : String) (max_tokens : Option Nat := none) : Value → List ℚ :=
  let index :=
    if dtype = "string" then
      stringLookupAdapt (dataset.featureValues name) max_tokens
    else
      integerLookupAdapt (dataset.featureValues name) max_tokens
  let encoder := fun i => oneHot index.vocabularySize i
  fun feature => encoder (index.lookup feature)

/-- Numeric reading of a cell value, as TensorFlow casts the column to a
float tensor (missing or string cells do not occur in numeric columns). -/
def Value.toNum : Value → ℚ
  | .int n => (n : ℚ)
  | .rat q => q
  | .str _ => 0

/-- The mean of a list of rationals (`0` for the empty list, as `ℚ`
division by zero is zero). -/
def listMean (xs : List ℚ) : ℚ :=
  xs.sum / xs.length

/-- The (population) variance of a list of rationals, the statistic Keras
`Normalization.adapt` learns together with the mean. -/
def listVariance (xs : List ℚ) : ℚ :=
  ((xs.map (fun x => (x - listMean xs) ^ 2)).sum) / xs.length

/-- The state of an adapted `Normalization` layer: the learned mean and
variance of the feature. -/
structure NormalizationLayer where
  mean : ℚ
  variance : ℚ
  deriving DecidableEq, Repr

/-- Keras `normalizer.adapt(feature_ds)`: one pass learning mean and variance. -/
def normalizationAdapt (xs : List ℚ) : NormalizationLayer :=
  { mean := listMean xs, variance := listVariance xs }

/-- Applying an adapted `Normalization` layer: `(x - mean) / s` where `s`
is the standard deviation, a square root of the learned variance (kept as a
parameter since square roots leave `ℚ`). -/
def NormalizationLayer.applyWith (L : NormalizationLayer) (s : ℚ) (x : ℚ) : ℚ :=
  (x - L.mean) / s

/-- Predicate: `s` is the standard deviation of `xs`: nonnegative and squaring to the
variance. -/
def IsStdDev (xs : List ℚ) (s : ℚ) : Prop :=
  0 ≤ s ∧ s ^ 2 = listVariance xs

/-- The numeric feature stream `dataset.map(lambda x, y: x[name])` as the
float tensor TensorFlow feeds to `adapt`. -/
def DSPipe.numericFeature (ds : DSPipe) (name : ColName) : List ℚ :=
  (ds.featureValues name).map (fun v => (v.getD (.int 0)).toNum)

/-- The notebook's `get_normalization_layer` (cell 11): creates a
`Normalization(axis=None)` layer, restricts the dataset to the feature, and
adapts the layer on it. -/
def get_normalization_layer (name : ColName) (dataset : DSPipe) : NormalizationLayer :=
  normalizationAdapt (dataset.numericFeature name)

/-- The semantic kind a model input column is given by cells 17–19. -/
inductive FeatureKind where
  | numeric | intCategorical | strCategorical
  deriving DecidableEq, Repr

/-- Cell 17's loop header: `for header in ['PhotoAmt', 'Fee']`. -/
def numericHeaders : List ColName := [.photoAmt, .fee]

/-- Cell 19: `categorical_cols = ['Type', 'Color1', 'Color2', 'Gender',
'MaturitySize', 'FurLength', 'Vaccinated', 'Sterilized', 'Health',
'Breed1']`. -/
def categorical_cols : List ColName :=
  [.typeCol, .color1, .color2, .gender, .maturitySize, .furLength,
   .vaccinated, .sterilized, .health, .breed1]

/-- The model inputs in the order `all_inputs` is built (cells 17–19):
the two numeric columns, then `Age` as an integer-categorical input, then
the ten string-categorical columns. -/
def modelInputs : List (ColName × FeatureKind) :=
  numericHeaders.map (fun h => (h, FeatureKind.numeric))
    ++ [(.age, FeatureKind.intCategorical)]
    ++ categorical_cols.map (fun h => (h, FeatureKind.strCategorical))

/-- The thirteen feature keys the trained model expects. -/
def expectedFeatureKeys : List ColName := modelInputs.map Prod.fst

/-- The adapted `Normalization` layers of the model (cell 17): one per
numeric header, adapted on `train_ds`. -/
def builtNormLayers (ds : DSPipe) : List (ColName × NormalizationLayer) :=
  numericHeaders.map (fun h => (h, get_normalization_layer h ds))

/-- The adapted lookup layers of the model: `Age` through an
`IntegerLookup` with `max_tokens=5` (cell 18), each string column through a
`StringLookup` with `max_tokens=5` (cell 19). -/
def builtCatLayers (ds : DSPipe) : List (ColName × LookupLayer) :=
  (.age, integerLookupAdapt (ds.featureValues .age) (some 5))
    :: categorical_cols.map
        (fun h => (h, stringLookupAdapt (ds.featureValues h) (some 5)))

/-- The trained model's state: the adapted preprocessing layers baked into
the graph (cells 17–19) and the dense classifier's weights (cell 20:
`Dense(32, relu)`, `Dropout(0.5)`, `Dense(1)`; dropout has no weights). -/
structure KModel where
  normLayers : List (ColName × NormalizationLayer)
  catLayers : List (ColName × LookupLayer)
  w1 : List (List ℚ)
  b1 : List ℚ
  w2 : List ℚ
  b2 : ℚ
  deriving DecidableEq, Repr

/-- Dot product of two weight/activation vectors. -/
def dot (xs ys : List ℚ) : ℚ :=
  (List.zipWith (fun a b => a * b) xs ys).sum

/-- A dense layer: each row of `W` with its bias gives one output unit. -/
def denseLayer (W : List (List ℚ)) (b : List ℚ) (x : List ℚ) : List ℚ :=
  List.zipWith (fun row bi => dot row x + bi) W b

/-- The `relu` activation. -/
def relu (x : ℚ) : ℚ := max 0 x

/-- The concatenated encoded features of cell 20
(`tf.keras.layers.concatenate(encoded_features)`): each numeric input
normalized with the adapted statistics, each categorical input one-hot
encoded through its adapted lookup layer.  `sq` supplies the square root
in `(x - mean) / sqrt variance`. -/
def encodeInput (m : KModel) (sq : ℚ → ℚ) (input : Row) : List ℚ :=
  (m.normLayers.map (fun p =>
      [p.2.applyWith (sq p.2.variance) ((getCell input p.1).getD (.int 0)).toNum])).flatten
    ++ (m.catLayers.map (fun p =>
        oneHot p.2.vocabularySize (p.2.lookup ((getCell input p.1).getD (.int 0))))).flatten

/-- Keras `model.predict` on one sample: the deterministic inference pass —
encode, dense+relu, dropout as identity (inference mode), final dense. -/
def KModel.predict (m : KModel) (sq : ℚ → ℚ) (input : Row) : ℚ :=
  dot m.w2 ((denseLayer m.w1 m.b1 (encodeInput m sq input)).map relu) + m.b2

/-- A token of the serialized model
(`model.save('my_pet_classifier')` / SavedModel): the flat stream of
structure counts, weights, column names and vocabulary entries. -/
inductive SerTok where
  | nat (k : Nat) | rat (q : ℚ) | col (c : ColName) | oval (v : Option Value)
  deriving DecidableEq, Repr

/-- Serialize one rational weight. -/
def encRat (q : ℚ) : List SerTok := [.rat q]

/-- Parse one rational weight. -/
def decRat : List SerTok → Option (ℚ × List SerTok)
  | .rat q :: ts => some (q, ts)
  | _ => none

/-- Serialize a list, length-prefixed. -/
def encList (enc : α → List SerTok) (xs : List α) : List SerTok :=
  .nat xs.length :: (xs.map enc).flatten

/-- Parse exactly `k` elements. -/
def decCount (dec : List SerTok → Option (α × List SerTok)) :
    Nat → List SerTok → Option (List α × List SerTok)
  | 0, ts => some ([], ts)
  | k + 1, ts =>
    (dec ts).bind fun p =>
      (decCount dec k p.2).map fun q => (p.1 :: q.1, q.2)

/-- Parse a length-prefixed list. -/
def decList (dec : List SerTok → Option (α × List SerTok)) :
    List SerTok → Option (List α × List SerTok)
  | .nat k :: ts => decCount dec k ts
  | _ => none

/-- Serialize one adapted normalization layer entry. -/
def encNormEntry (p : ColName × NormalizationLayer) : List SerTok :=
  [.col p.1, .rat p.2.mean, .rat p.2.variance]

/-- Parse one adapted normalization layer entry. -/
def decNormEntry : List SerTok → Option ((ColName × NormalizationLayer) × List SerTok)
  | .col c :: .rat m :: .rat v :: ts => some ((c, ⟨m, v⟩), ts)
  | _ => none

/-- Serialize one vocabulary entry. -/
def encOVal (v : Option Value) : List SerTok := [.oval v]

/-- Parse one vocabulary entry. -/
def decOVal : List SerTok → Option (Option Value × List SerTok)
  | .oval v :: ts => some (v, ts)
  | _ => none

/-- Serialize one adapted lookup layer entry. -/
def encCatEntry (p : ColName × LookupLayer) : List SerTok :=
  .col p.1 :: encList encOVal p.2.vocab

/-- Parse one adapted lookup layer entry. -/
def decCatEntry : List SerTok → Option ((ColName × LookupLayer) × List SerTok)
  | .col c :: ts => (decList decOVal ts).map fun q => ((c, ⟨q.1⟩), q.2)
  | _ => none

/-- Keras `model.save('my_pet_classifier')`: flatten the model state — adapted
preprocessing layers and dense weights — into a token stream. -/
def model_save (m : KModel) : List SerTok :=
  encList encNormEntry m.normLayers
    ++ encList encCatEntry m.catLayers
    ++ encList (encList encRat) m.w1
    ++ encList encRat m.b1
    ++ encList encRat m.w2
    ++ [.rat m.b2]

/-- Keras `tf.keras.models.load_model('my_pet_classifier')`: parse the token
stream back into a model, failing on any malformed stream. -/
def load_model (ts : List SerTok) : Option KModel :=
  (decList decNormEntry ts).bind fun pn =>
    (decList decCatEntry pn.2).bind fun pc =>
      (decList (decList decRat) pc.2).bind fun pw1 =>
        (decList decRat pw1.2).bind fun pb1 =>
          (decList decRat pb1.2).bind fun pw2 =>
            match pw2.2 with
            | [.rat b2] => some ⟨pn.1, pc.1, pw1.1, pb1.1, pw2.1, b2⟩
            | _ => none

/-- Which dataframe split a `df_to_dataset` call wraps. -/
inductive SplitName where
  | train | val | test
  deriving DecidableEq, Repr

/-- One top-level operation of a notebook code cell. -/
inductive Step where
  | importLibs
  | loadCSV
  | preview
  | createTarget
  | dropColumns
  | splitFrame
  | defineHelper
  | wrapDataset (which : SplitName)
  | adaptNumeric (col : ColName)
  | adaptCategorical (col : ColName)
  | applyLayerDemo
  | buildModel
  | compileModel
  | fitModel
  | evaluateModel
  | saveModel
  | reloadModel
  | predictOnce
  deriving DecidableEq, Repr

/-- The notebook's executed code cells, in execution order, as the sequence
of their top-level operations (cells 1–25; markdown cells carry no step,
`head()`, `take(1)` prints and `plot_model` are previews). -/
def script : List Step :=
  [ .importLibs,                -- imports cell
    .loadCSV,                   -- cell 4: get_file + pd.read_csv
    .preview,                   -- cell 5: dataframe.head()
    .createTarget, .dropColumns,  -- cell 6
    .splitFrame, .splitFrame,     -- cell 7: two train_test_split calls
    .defineHelper,                -- cell 8: def df_to_dataset
    .wrapDataset .train,          -- cell 9: train_ds = df_to_dataset(train)
    .preview,                     -- cell 10: take(1) and prints
    .defineHelper,                -- cell 11: def get_normalization_layer
    .adaptNumeric .photoAmt, .applyLayerDemo,   -- cell 12
    .defineHelper,                -- cell 13: def get_category_encoding_layer
    .adaptCategorical .typeCol, .applyLayerDemo,  -- cell 14
    .adaptCategorical .age, .applyLayerDemo,      -- cell 15
    .wrapDataset .train, .wrapDataset .val, .wrapDataset .test,  -- cell 16
    .adaptNumeric .photoAmt, .adaptNumeric .fee,  -- cell 17
    .adaptCategorical .age,                       -- cell 18
    .adaptCategorical .typeCol, .adaptCategorical .color1,
    .adaptCategorical .color2, .adaptCategorical .gender,
    .adaptCategorical .maturitySize, .adaptCategorical .furLength,
    .adaptCategorical .vaccinated, .adaptCategorical .sterilized,
    .adaptCategorical .health, .adaptCategorical .breed1,  -- cell 19
    .buildModel, .compileModel,   -- cell 20
    .preview,                     -- cell 21: plot_model
    .fitModel,                    -- cell 22
    .evaluateModel,               -- cell 23
    .saveModel, .reloadModel,     -- cell 24
    .predictOnce ]                -- cell 25

/-- Order test `isSubseqOf xs ys`: `xs` occurs inside `ys` in order (not necessarily
contiguously). -/
def isSubseqOf : List Step → List Step → Bool
  | [], _ => true
  | _ :: _, [] => false
  | x :: xs, y :: ys =>
    if x = y then isSubseqOf xs ys else isSubseqOf (x :: xs) ys

/-- A Python statement of the notebook's grammar: a plain step, a
sequencing of two statements, or a `try`/`except` with a handler (the
construct the notebook never uses). -/
inductive Stmt where
  | step (s : Step)
  | andThen (a b : Stmt)
  | tryCatch (body handler : Stmt)
  deriving DecidableEq, Repr

/-- Whether a statement contains a `try`/`except` handler anywhere. -/
def Stmt.hasTryCatch : Stmt → Bool
  | .step _ => false
  | .andThen a b => a.hasTryCatch || b.hasTryCatch
  | .tryCatch _ _ => true

/-- Run one statement: a step applies its library effect, which may raise;
sequencing propagates an error; `try`/`except` recovers by running the
handler. -/
def runStmt (eff : Step → St → Except E St) : Stmt → St → Except E St
  | .step s, σ => eff s σ
  | .andThen a b, σ =>
    match runStmt eff a σ with
    | .ok σ' => runStmt eff b σ'
    | .error e => .error e
  | .tryCatch body handler, σ =>
    match runStmt eff body σ with
    | .ok σ' => .ok σ'
    | .error _ => runStmt eff handler σ

/-- Run a list of statements in order, stopping at the first error. -/
def runSteps (eff : Step → St → Except E St) : List Stmt → St → Except E St
  | [], σ => .ok σ
  | st :: rest, σ =>
    match runStmt eff st σ with
    | .ok σ' => runSteps eff rest σ'
    | .error e => .error e

/-- The notebook as a statement list: every cell operation is a plain step;
the source contains no `try`/`except`. -/
def scriptStmts : List Stmt := script.map Stmt.step

/-- A heap of dataframe objects, for the mutation semantics of
`df_to_dataset`: Python names are references into the heap. -/
def Store : Type := Nat → DataFrame

/-- The function `df_to_dataset` run against the heap: `dataframe.copy()` allocates a
fresh object `fresh` holding the argument's contents and rebinds the local
name to it; `dataframe.pop('target')` then mutates that fresh object; the
pipeline is built from the popped copy.  Returns the dataset and the heap
after the call. -/
def df_to_dataset_exec (σ : Store) (arg fresh : Nat) (shuffle : Bool)
    (batch_size : Nat) : DSPipe × Store :=
  let σ₁ : Store := fun n => if n = fresh then (σ arg).copy else σ n
  let popped := (σ₁ fresh).pop .target
  let labels := popped.1
  let σ₂ : Store := fun n => if n = fresh then popped.2 else σ₁ n
  let df := σ₂ fresh
  let ds := DSPipe.tensorSlices df.rows labels
  let ds := if shuffle then DSPipe.shuffle df.rows.length ds else ds
  (DSPipe.prefetch batch_size (DSPipe.batch batch_size ds), σ₂)

/-! ## Helper lemmas -/

theorem sum_map_div (xs : List ℚ) (c : ℚ) :
    (xs.map (fun x => x / c)).sum = xs.sum / c := by
  induction xs with
  | nil => simp
  | cons x xs ih => simp [ih, add_div]

theorem sum_map_sub (xs : List ℚ) (c : ℚ) :
    (xs.map (fun x => x - c)).sum = xs.sum - xs.length * c := by
  induction xs with
  | nil => simp
  | cons x xs ih =>
    simp only [List.map_cons, List.sum_cons, ih, List.length_cons]
    push_cast
    ring

theorem sum_map_center (xs : List ℚ) :
    (xs.map (fun x => x - listMean xs)).sum = 0 := by
  rcases xs with _ | ⟨x, xs⟩
  · simp
  · rw [sum_map_sub, listMean]
    have hn : ((x :: xs).length : ℚ) ≠ 0 := by
      simp [List.length_cons]
      positivity
    field_simp

theorem length_pos_of_variance_ne_zero (xs : List ℚ)
    (h : listVariance xs ≠ 0) : xs ≠ [] := by
  intro hnil
  apply h
  simp [hnil, listVariance, listMean]

/-- The mean of the centered-and-scaled data is `0` for any scale. -/
theorem mean_normalized (xs : List ℚ) (s : ℚ) :
    listMean (xs.map (fun x => (x - listMean xs) / s)) = 0 := by
  have hmap : xs.map (fun x => (x - listMean xs) / s)
      = (xs.map (fun x => x - listMean xs)).map (fun y => y / s) := by
    simp [List.map_map, Function.comp]
  rw [listMean, hmap, sum_map_div, sum_map_center]
  simp

/-- The variance of the centered-and-scaled data is `1` when the scale `s`
is a nonzero square root of the variance. -/
theorem variance_normalized (xs : List ℚ) (s : ℚ)
    (hs : s ^ 2 = listVariance xs) (hs0 : s ≠ 0) :
    listVariance (xs.map (fun x => (x - listMean xs) / s)) = 1 := by
  have hvar : listVariance xs ≠ 0 := by
    rw [← hs]
    exact pow_ne_zero 2 hs0
  have hxs : xs ≠ [] := length_pos_of_variance_ne_zero xs hvar
  have hn : ((xs.length : ℚ)) ≠ 0 := by
    rcases xs with _ | ⟨x, xs⟩
    · exact absurd rfl hxs
    · simp [List.length_cons]
      positivity
  rw [listVariance, mean_normalized]
  have hmap : (xs.map (fun x => (x - listMean xs) / s)).map (fun y => (y - 0) ^ 2)
      = (xs.map (fun x => (x - listMean xs) ^ 2)).map (fun z => z / s ^ 2) := by
    simp only [List.map_map]
    apply List.map_congr_left
    intro a _
    simp [Function.comp, div_pow]
  rw [hmap, sum_map_div, List.length_map]
  have hsum : (xs.map (fun x => (x - listMean xs) ^ 2)).sum
      = listVariance xs * xs.length := by
    rw [listVariance]
    field_simp
  rw [hsum, ← hs]
  field_simp

theorem lookup_eq_none_of_keys_ne (k : ColName) :
    ∀ l : Row, (∀ p ∈ l, p.1 ≠ k) → List.lookup k l = none := by
  intro l
  induction l with
  | nil => intro _; rfl
  | cons p l ih =>
    intro h
    obtain ⟨a, b⟩ := p
    have hp : a ≠ k := h (a, b) (List.mem_cons_self _ l)
    have hbeq : (k == a) = false := by
      rw [beq_eq_false_iff_ne]
      exact fun he => hp he.symm
    rw [List.lookup, hbeq]
    exact ih (fun q hq => h q (List.mem_cons_of_mem _ hq))

theorem lookup_append_of_keys_ne (k : ColName) (l₁ l₂ : Row)
    (h : ∀ p ∈ l₁, p.1 ≠ k) :
    List.lookup k (l₁ ++ l₂) = List.lookup k l₂ := by
  induction l₁ with
  | nil => rfl
  | cons p l ih =>
    obtain ⟨a, b⟩ := p
    have hp : a ≠ k := h (a, b) (List.mem_cons_self _ l)
    have hbeq : (k == a) = false := by
      rw [beq_eq_false_iff_ne]
      exact fun he => hp he.symm
    rw [List.cons_append, List.lookup, hbeq]
    exact ih (fun q hq => h q (List.mem_cons_of_mem _ hq))

theorem decCount_roundtrip {α : Type} (dec : List SerTok → Option (α × List SerTok))
    (enc : α → List SerTok)
    (h : ∀ a rest, dec (enc a ++ rest) = some (a, rest)) :
    ∀ (xs : List α) (rest : List SerTok),
      decCount dec xs.length ((xs.map enc).flatten ++ rest) = some (xs, rest) := by
  intro xs
  induction xs with
  | nil => intro rest; simp [decCount]
  | cons x xs ih =>
    intro rest
    simp only [List.map_cons, List.flatten_cons, List.length_cons,
      List.append_assoc, decCount, h, Option.bind_eq_bind, Option.some_bind, ih]
    rfl

theorem decList_roundtrip {α : Type} (dec : List SerTok → Option (α × List SerTok))
    (enc : α → List SerTok)
    (h : ∀ a rest, dec (enc a ++ rest) = some (a, rest))
    (xs : List α) (rest : List SerTok) :
    decList dec (encList enc xs ++ rest) = some (xs, rest) := by
  simp [encList, decList, decCount_roundtrip dec enc h]

theorem decRat_roundtrip (q : ℚ) (rest : List SerTok) :
    decRat (encRat q ++ rest) = some (q, rest) := rfl

theorem decOVal_roundtrip (v : Option Value) (rest : List SerTok) :
    decOVal (encOVal v ++ rest) = some (v, rest) := rfl

theorem decNormEntry_roundtrip (p : ColName × NormalizationLayer) (rest : List SerTok) :
    decNormEntry (encNormEntry p ++ rest) = some (p, rest) := rfl

theorem decCatEntry_roundtrip (p : ColName × LookupLayer) (rest : List SerTok) :
    decCatEntry (encCatEntry p ++ rest) = some (p, rest) := by
  simp [encCatEntry, decCatEntry, decList_roundtrip decOVal encOVal decOVal_roundtrip]

/-- Serializing the model and parsing the stream back recovers the model. -/
theorem load_model_save (m : KModel) : load_model (model_save m) = some m := by
  obtain ⟨nl, cl, w1, b1, w2, b2⟩ := m
  simp [model_save, load_model, List.append_assoc,
    decList_roundtrip decNormEntry encNormEntry decNormEntry_roundtrip,
    decList_roundtrip decCatEntry encCatEntry decCatEntry_roundtrip,
    decList_roundtrip (decList decRat) (encList encRat)
      (fun a rest => decList_roundtrip decRat encRat decRat_roundtrip a rest),
    decList_roundtrip decRat encRat decRat_roundtrip]

theorem vocabIndex_lt_length (v : Option Value) :
    ∀ l : List (Option Value), v ∈ l → vocabIndex v l < l.length := by
  intro l
  induction l with
  | nil => intro h; cases h
  | cons w ws ih =>
    intro h
    by_cases hw : w = v
    · simp [vocabIndex, hw]
    · have hmem : v ∈ ws := by
        cases h with
        | head => exact absurd rfl hw
        | tail _ h' => exact h'
      simp only [vocabIndex, hw, if_false, List.length_cons]
      exact Nat.succ_lt_succ (ih hmem)

theorem oneHot_length (n i : Nat) : (oneHot n i).length = n := by
  simp [oneHot]

theorem oneHot_getElem (n i j : Nat) (hj : j < n) :
    (oneHot n i)[j]? = some (if j = i then 1 else 0) := by
  simp [oneHot, List.getElem?_range hj]

/-- Errors propagate through a handler-free statement list: a step's error
inside any split aborts the whole run with that error. -/
theorem runSteps_error_propagates {St E : Type} (eff : Step → St → Except E St) :
    ∀ (pre : List Stmt) (s : Step) (post : List Stmt) (σ₀ σ : St) (e : E),
      runSteps eff pre σ₀ = .ok σ → eff s σ = .error e →
      runSteps eff (pre ++ Stmt.step s :: post) σ₀ = .error e := by
  intro pre
  induction pre with
  | nil =>
    intro s post σ₀ σ e hpre herr
    simp only [runSteps] at hpre
    cases hpre
    simp only [List.nil_append, runSteps, runStmt, herr]
  | cons st pre ih =>
    intro s post σ₀ σ e hpre herr
    simp only [runSteps] at hpre
    simp only [List.cons_append, runSteps]
    cases h : runStmt eff st σ₀ with
    | ok σ' =>
      rw [h] at hpre
      exact ih s post σ' σ e hpre herr
    | error e' =>
      rw [h] at hpre
      exact absurd hpre (by simp)

/-! ## Claim theorems -/

/-- C1: the top-level script performs — in this order — loading the CSV,
splitting the dataframe (twice, giving train/val/test), wrapping each of
the three splits in a `tf.data` pipeline, building and adapting the
model's preprocessing layers, building the concatenated dense classifier,
training it, evaluating it, saving and reloading the model; the single
`predict` call on the reloaded model is the last step and occurs exactly
once in the whole script. -/
theorem C1_script_order :
    isSubseqOf
      [ .loadCSV, .splitFrame, .splitFrame,
        .wrapDataset .train, .wrapDataset .val, .wrapDataset .test,
        .adaptNumeric .photoAmt, .adaptNumeric .fee,
        .adaptCategorical .age, .adaptCategorical .typeCol,
        .adaptCategorical .color1, .adaptCategorical .color2,
        .adaptCategorical .gender, .adaptCategorical .maturitySize,
        .adaptCategorical .furLength, .adaptCategorical .vaccinated,
        .adaptCategorical .sterilized, .adaptCategorical .health,
        .adaptCategorical .breed1,
        .buildModel, .fitModel, .evaluateModel,
        .saveModel, .reloadModel, .predictOnce ] script = true
    ∧ script.count .predictOnce = 1
    ∧ script.getLast? = some .predictOnce := by
  decide

/-- C4 counterexample: the claim says every one of the three splits is
wrapped in a pipeline that shuffles its rows; but on a concrete one-row
dataframe the validation and test pipelines built at cell 16 contain no
shuffle stage at all. -/
theorem C4_counterexample :
    (val_ds ⟨[.target], [[(.target, .int 1)]]⟩).hasShuffle = false
    ∧ (test_ds ⟨[.target], [[(.target, .int 1)]]⟩).hasShuffle = false := by
  decide

/-- C4 (amended): the train split is wrapped in a pipeline that shuffles
its rows with buffer size equal to the dataframe length, then batches with
the given batch size 256, then prefetches; the validation and test splits
are batched and prefetched with the same batch size but without a shuffle
stage (`shuffle=False`). -/
theorem C4_pipeline_stages (train val test : DataFrame) :
    train_ds train =
      .prefetch 256 (.batch 256 (.shuffle train.rows.length
        (.tensorSlices (train.drop [.target]).rows
          (train.rows.map (fun r => getCell r .target)))))
    ∧ val_ds val =
      .prefetch 256 (.batch 256
        (.tensorSlices (val.drop [.target]).rows
          (val.rows.map (fun r => getCell r .target))))
    ∧ test_ds test =
      .prefetch 256 (.batch 256
        (.tensorSlices (test.drop [.target]).rows
          (test.rows.map (fun r => getCell r .target)))) := by
  refine ⟨?_, rfl, rfl⟩
  simp [train_ds, df_to_dataset, DataFrame.copy, DataFrame.pop, DataFrame.drop,
    finalBatchSize, List.length_map]

/-- C4 witness: the amended pipeline shapes at a concrete one-row frame. -/
theorem C4_witness :
    let df : DataFrame := ⟨[.target, .fee], [[(.target, .int 1), (.fee, .int 7)]]⟩
    train_ds df =
      .prefetch 256 (.batch 256 (.shuffle df.rows.length
        (.tensorSlices (df.drop [.target]).rows
          (df.rows.map (fun r => getCell r .target)))))
    ∧ val_ds df =
      .prefetch 256 (.batch 256
        (.tensorSlices (df.drop [.target]).rows
          (df.rows.map (fun r => getCell r .target))))
    ∧ test_ds df =
      .prefetch 256 (.batch 256
        (.tensorSlices (df.drop [.target]).rows
          (df.rows.map (fun r => getCell r .target)))) :=
  C4_pipeline_stages _ _ _

/-- C8: every model input column has a fixed semantic kind — `PhotoAmt` and
`Fee` numeric, `Age` integer-categorical, the ten string columns
string-categorical — each column appears with exactly one kind, and the
free-text `Description` column is not among the model inputs. -/
theorem C8_feature_kinds :
    modelInputs =
      [ (.photoAmt, .numeric), (.fee, .numeric), (.age, .intCategorical),
        (.typeCol, .strCategorical), (.color1, .strCategorical),
        (.color2, .strCategorical), (.gender, .strCategorical),
        (.maturitySize, .strCategorical), (.furLength, .strCategorical),
        (.vaccinated, .strCategorical), (.sterilized, .strCategorical),
        (.health, .strCategorical), (.breed1, .strCategorical) ]
    ∧ (modelInputs.map Prod.fst).Nodup
    ∧ expectedFeatureKeys.contains .description = false := by
  decide

/-- C2: for a categorical feature, `get_category_encoding_layer` builds a
`StringLookup` when `dtype == 'string'` and an `IntegerLookup` otherwise,
adapts it on the dataset restricted to that feature, and returns the
function mapping a feature value to its one-hot encoding at the learned
vocabulary index: the output vector has length `vocabulary_size()`, holds a
`1` exactly at the learned index, the size is bounded by `max_tokens` when
supplied, and the learned index lies below the vocabulary size. -/
theorem C2_category_encoding_layer (name : ColName) (ds : DSPipe)
    (dtype : String) (mt : Option Nat) :
    (dtype = "string" →
      get_category_encoding_layer name ds dtype mt = fun v =>
        oneHot (stringLookupAdapt (ds.featureValues name) mt).vocabularySize
          ((stringLookupAdapt (ds.featureValues name) mt).lookup v))
    ∧ (dtype ≠ "string" →
      get_category_encoding_layer name ds dtype mt = fun v =>
        oneHot (integerLookupAdapt (ds.featureValues name) mt).vocabularySize
          ((integerLookupAdapt (ds.featureValues name) mt).lookup v))
    ∧ (∀ v, (get_category_encoding_layer name ds dtype mt v).length
        = (lookupAdapt (ds.featureValues name) mt).vocabularySize)
    ∧ (∀ v j, j < (lookupAdapt (ds.featureValues name) mt).vocabularySize →
        (get_category_encoding_layer name ds dtype mt v)[j]? =
          some (if j = (lookupAdapt (ds.featureValues name) mt).lookup v
                then 1 else 0))
    ∧ (∀ m, mt = some m →
        (lookupAdapt (ds.featureValues name) mt).vocabularySize ≤ m)
    ∧ ((mt = none ∨ ∃ m, mt = some m ∧ 1 ≤ m) →
        ∀ v, (lookupAdapt (ds.featureValues name) mt).lookup v
          < (lookupAdapt (ds.featureValues name) mt).vocabularySize) := by
  have hvocab_ne : (mt = none ∨ ∃ m, mt = some m ∧ 1 ≤ m) →
      0 < (lookupAdapt (ds.featureValues name) mt).vocab.length := by
    rintro (hmt | ⟨m, hmt, hm⟩) <;> subst hmt
    · simp [lookupAdapt]
    · simp [lookupAdapt, List.length_take]
      omega
  refine ⟨?_, ?_, ?_, ?_, ?_, ?_⟩
  · intro h
    funext v
    simp [get_category_encoding_layer, h]
  · intro h
    funext v
    simp [get_category_encoding_layer, h]
  · intro v
    by_cases h : dtype = "string" <;>
      simp [get_category_encoding_layer, h, oneHot_length, stringLookupAdapt,
        integerLookupAdapt, LookupLayer.vocabularySize]
  · intro v j hj
    by_cases h : dtype = "string" <;>
      simp only [get_category_encoding_layer, h, if_true, if_false,
        reduceIte, stringLookupAdapt, integerLookupAdapt] <;>
      exact oneHot_getElem _ _ j hj
  · intro m hmt
    subst hmt
    simp [lookupAdapt, LookupLayer.vocabularySize, List.length_take]
  · intro hne v
    have hlen := hvocab_ne hne
    unfold LookupLayer.lookup LookupLayer.vocabularySize
    by_cases hmem : some v ∈ (lookupAdapt (ds.featureValues name) mt).vocab
    · simp only [hmem, if_true]
      exact vocabIndex_lt_length _ _ hmem
    · simp only [hmem, if_false]
      exact hlen

/-- C2 witness: a concrete string feature with `max_tokens = 5`. -/
theorem C2_witness :
    let ds : DSPipe := .tensorSlices
      [[(.typeCol, .str ("Dog"))], [(.typeCol, .str ("Cat"))], [(.typeCol, .str ("Dog"))]]
      []
    ("string" = "string" →
      get_category_encoding_layer .typeCol ds ("string") (some 5) = fun v =>
        oneHot (stringLookupAdapt (ds.featureValues .typeCol) (some 5)).vocabularySize
          ((stringLookupAdapt (ds.featureValues .typeCol) (some 5)).lookup v))
    ∧ ("string" ≠ "string" →
      get_category_encoding_layer .typeCol ds ("string") (some 5) = fun v =>
        oneHot (integerLookupAdapt (ds.featureValues .typeCol) (some 5)).vocabularySize
          ((integerLookupAdapt (ds.featureValues .typeCol) (some 5)).lookup v))
    ∧ (∀ v, (get_category_encoding_layer .typeCol ds ("string") (some 5) v).length
        = (lookupAdapt (ds.featureValues .typeCol) (some 5)).vocabularySize)
    ∧ (∀ v j, j < (lookupAdapt (ds.featureValues .typeCol) (some 5)).vocabularySize →
        (get_category_encoding_layer .typeCol ds ("string") (some 5) v)[j]? =
          some (if j = (lookupAdapt (ds.featureValues .typeCol) (some 5)).lookup v
                then 1 else 0))
    ∧ (∀ m, (some 5 : Option Nat) = some m →
        (lookupAdapt (ds.featureValues .typeCol) (some 5)).vocabularySize ≤ m)
    ∧ (((some 5 : Option Nat) = none ∨ ∃ m, (some 5 : Option Nat) = some m ∧ 1 ≤ m) →
        ∀ v, (lookupAdapt (ds.featureValues .typeCol) (some 5)).lookup v
          < (lookupAdapt (ds.featureValues .typeCol) (some 5)).vocabularySize) :=
  C2_category_encoding_layer .typeCol _ ("string") (some 5)

/-- C3: `get_normalization_layer` adapts a `Normalization` layer on the
dataset restricted to the feature, learning that feature's mean and
variance in one pass; the layer computes `(x - mean) / s` with `s` the
standard deviation, and the transformed adapted data has mean `0` and
standard deviation `1`. -/
theorem C3_normalization_layer (name : ColName) (ds : DSPipe) (s : ℚ)
    (hs : s ^ 2 = (get_normalization_layer name ds).variance) (hpos : 0 < s) :
    (get_normalization_layer name ds).mean = listMean (ds.numericFeature name)
    ∧ (get_normalization_layer name ds).variance
        = listVariance (ds.numericFeature name)
    ∧ listMean ((ds.numericFeature name).map
        ((get_normalization_layer name ds).applyWith s)) = 0
    ∧ IsStdDev ((ds.numericFeature name).map
        ((get_normalization_layer name ds).applyWith s)) 1 := by
  have hmean : (get_normalization_layer name ds).mean
      = listMean (ds.numericFeature name) := rfl
  have hvar : (get_normalization_layer name ds).variance
      = listVariance (ds.numericFeature name) := rfl
  have happly : (get_normalization_layer name ds).applyWith s
      = fun x => (x - listMean (ds.numericFeature name)) / s := rfl
  refine ⟨hmean, hvar, ?_, ?_, ?_⟩
  · rw [happly]
    exact mean_normalized (ds.numericFeature name) s
  · norm_num
  · rw [happly]
    rw [variance_normalized (ds.numericFeature name) s (hs.trans hvar) (ne_of_gt hpos)]
    norm_num

/-- C3 witness: the feature stream `[1, 3]` has mean `2` and variance `1`,
so `s = 1` is its standard deviation. -/
theorem C3_witness :
    let ds : DSPipe := .tensorSlices [[(.fee, .rat 1)], [(.fee, .rat 3)]] []
    (1 : ℚ) ^ 2 = (get_normalization_layer .fee ds).variance
    ∧ (0 : ℚ) < 1
    ∧ ((get_normalization_layer .fee ds).mean = listMean (ds.numericFeature .fee)
      ∧ (get_normalization_layer .fee ds).variance
          = listVariance (ds.numericFeature .fee)
      ∧ listMean ((ds.numericFeature .fee).map
          ((get_normalization_layer .fee ds).applyWith 1)) = 0
      ∧ IsStdDev ((ds.numericFeature .fee).map
          ((get_normalization_layer .fee ds).applyWith 1)) 1) := by
  refine ⟨?_, by norm_num, C3_normalization_layer .fee _ 1 ?_ (by norm_num)⟩ <;>
    norm_num [get_normalization_layer, normalizationAdapt, DSPipe.numericFeature,
      DSPipe.featureValues, DSPipe.baseRows, getCell, List.lookup, Value.toNum,
      listVariance, listMean]

/-- C5: once `adapt` has run, the returned transforms are deterministic:
applying a returned layer twice to the same value gives the same output,
and the output depends only on the adapted statistics — two pipelines whose
restriction to the feature agree (the training-time and inference-time
views of the same adapted state) yield identical layers. -/
theorem C5_deterministic_transforms (name : ColName) (ds ds' : DSPipe)
    (dtype : String) (mt : Option Nat) (s x : ℚ) (v : Value)
    (hnum : ds.numericFeature name = ds'.numericFeature name)
    (hvals : ds.featureValues name = ds'.featureValues name) :
    (get_normalization_layer name ds).applyWith s x
        = (get_normalization_layer name ds).applyWith s x
    ∧ get_category_encoding_layer name ds dtype mt v
        = get_category_encoding_layer name ds dtype mt v
    ∧ get_normalization_layer name ds = get_normalization_layer name ds'
    ∧ get_category_encoding_layer name ds dtype mt
        = get_category_encoding_layer name ds' dtype mt := by
  refine ⟨rfl, rfl, ?_, ?_⟩
  · simp [get_normalization_layer, hnum]
  · simp [get_category_encoding_layer, hvals]

/-- C5 witness: a concrete adapted layer applied twice, with the training
and inference pipelines being the same concrete pipeline. -/
theorem C5_witness :
    let ds : DSPipe := .tensorSlices [[(.fee, .rat 1)], [(.fee, .rat 3)]] []
    (get_normalization_layer .fee ds).applyWith 1 2
        = (get_normalization_layer .fee ds).applyWith 1 2
    ∧ get_category_encoding_layer .fee ds ("string") (some 5) (.rat 1)
        = get_category_encoding_layer .fee ds ("string") (some 5) (.rat 1)
    ∧ get_normalization_layer .fee ds = get_normalization_layer .fee ds
    ∧ get_category_encoding_layer .fee ds ("string") (some 5)
        = get_category_encoding_layer .fee ds ("string") (some 5) :=
  C5_deterministic_transforms .fee _ _ ("string") (some 5) 1 2 (.rat 1) rfl rfl

/-- C6: in every row produced by the target-creation cell, the derived
label is `0` when `AdoptionSpeed == 4` and `1` otherwise; the
`AdoptionSpeed` and `Description` cells and columns are removed by the same
cell, which precedes the split, the dataset wrapping and the training in
the script order, so no later operation can read them. -/
theorem C6_target_binary_and_drop (df : DataFrame) :
    List.Forall₂ (fun r pr =>
      getCell pr .target
        = some (.int (if getCell r .adoptionSpeed = some (.int 4) then 0 else 1))
      ∧ getCell pr .adoptionSpeed = none
      ∧ getCell pr .description = none)
      df.rows (prepare df).rows
    ∧ ColName.adoptionSpeed ∉ (prepare df).cols
    ∧ ColName.description ∉ (prepare df).cols
    ∧ script.indexOf .dropColumns < script.indexOf .splitFrame
    ∧ script.indexOf .dropColumns < script.indexOf (.wrapDataset .train)
    ∧ script.indexOf .dropColumns < script.indexOf .fitModel := by
  refine ⟨?_, ?_, ?_, by decide, by decide, by decide⟩
  · have hrows : (prepare df).rows = df.rows.map (fun r =>
        ((r.filter (fun p => p.1 ≠ ColName.target)) ++
          [(ColName.target,
            Value.int (if getCell r .adoptionSpeed = some (.int 4) then 0 else 1))]).filter
          (fun p => p.1 ∉ [ColName.adoptionSpeed, ColName.description])) := by
      simp [prepare, DataFrame.setCol, DataFrame.drop, List.map_map]
    rw [hrows, List.forall₂_map_right_iff]
    rw [List.forall₂_same]
    intro r _
    have hkeysL : ∀ p ∈ (List.filter (fun p => decide (p.1 ≠ ColName.target)) r).filter
        (fun p => decide (p.1 ∉ [ColName.adoptionSpeed, ColName.description])),
        p.1 ≠ ColName.target := by
      intro p hp
      have hp' := List.mem_of_mem_filter hp
      have h1 := (List.mem_filter.1 hp').2
      simpa using h1
    refine ⟨?_, ?_, ?_⟩
    · unfold getCell
      rw [List.filter_append]
      rw [lookup_append_of_keys_ne _ _ _ hkeysL]
      simp [List.lookup]
    · unfold getCell
      apply lookup_eq_none_of_keys_ne
      intro p hp
      have h2 := (List.mem_filter.1 hp).2
      simp at h2
      exact h2.1
    · unfold getCell
      apply lookup_eq_none_of_keys_ne
      intro p hp
      have h2 := (List.mem_filter.1 hp).2
      simp at h2
      exact h2.2
  · intro hmem
    simp [prepare, DataFrame.drop, DataFrame.setCol, List.mem_filter] at hmem
  · intro hmem
    simp [prepare, DataFrame.drop, DataFrame.setCol, List.mem_filter] at hmem

/-- C6 witness: a concrete two-row frame, one row adopted within the window
(`AdoptionSpeed = 2`) and one not (`AdoptionSpeed = 4`). -/
theorem C6_witness :
    let df : DataFrame := ⟨[.adoptionSpeed, .description, .fee],
      [ [(.adoptionSpeed, .int 4), (.description, .str ("a")), (.fee, .int 1)],
        [(.adoptionSpeed, .int 2), (.description, .str ("b")), (.fee, .int 0)] ]⟩
    List.Forall₂ (fun r pr =>
      getCell pr .target
        = some (.int (if getCell r .adoptionSpeed = some (.int 4) then 0 else 1))
      ∧ getCell pr .adoptionSpeed = none
      ∧ getCell pr .description = none)
      df.rows (prepare df).rows
    ∧ ColName.adoptionSpeed ∉ (prepare df).cols
    ∧ ColName.description ∉ (prepare df).cols
    ∧ script.indexOf .dropColumns < script.indexOf .splitFrame
    ∧ script.indexOf .dropColumns < script.indexOf (.wrapDataset .train)
    ∧ script.indexOf .dropColumns < script.indexOf .fitModel :=
  C6_target_binary_and_drop _

/-- C7: saving the trained model and reloading it is a round-trip: the
reload parses the saved stream back to the very same model state, so for
every input dictionary with the thirteen expected feature keys the
reloaded model's `predict` returns the output of the original model's
`predict`. -/
theorem C7_save_reload_roundtrip (m : KModel) (sq : ℚ → ℚ) (input : Row)
    (hkeys : (input.map Prod.fst).Perm expectedFeatureKeys) :
    load_model (model_save m) = some m
    ∧ ∀ m', load_model (model_save m) = some m' →
        m'.predict sq input = m.predict sq input := by
  refine ⟨load_model_save m, fun m' hm' => ?_⟩
  rw [load_model_save m] at hm'
  cases hm'
  rfl

/-- C7 witness: a concrete one-unit model and the notebook's cell-25 sample
dictionary (thirteen keys). -/
theorem C7_witness :
    let m : KModel :=
      { normLayers := [(.photoAmt, ⟨2, 1⟩), (.fee, ⟨50, 4⟩)]
        catLayers := [(.age, ⟨[none, some (.int 3)]⟩),
                      (.typeCol, ⟨[none, some (.str ("Dog")), some (.str ("Cat"))]⟩)]
        w1 := [[1, 2, 3, 4, 5, 6, 7]]
        b1 := [1]
        w2 := [2]
        b2 := 3 }
    let sample : Row :=
      [ (.typeCol, .str ("Cat")), (.age, .int 3), (.breed1, .str ("Tabby")),
        (.gender, .str ("Male")), (.color1, .str ("Black")),
        (.color2, .str ("White")), (.maturitySize, .str ("Small")),
        (.furLength, .str ("Short")), (.vaccinated, .str ("No")),
        (.sterilized, .str ("No")), (.health, .str ("Healthy")),
        (.fee, .int 100), (.photoAmt, .int 2) ]
    load_model (model_save m) = some m
    ∧ ∀ m', load_model (model_save m) = some m' →
        m'.predict id sample = m.predict id sample := by
  exact C7_save_reload_roundtrip _ id _ (by decide)

/-- C9: `df_to_dataset` leaves its caller's dataframe object unchanged: the
function copies the frame into a fresh heap object and pops `target` from
the copy, so after the call the argument reference still holds the same
frame — its `target` column and all its rows included — and the built
pipeline is the one the pure `df_to_dataset` describes. -/
theorem C9_caller_frame_unchanged (σ : Store) (arg fresh : Nat) (sh : Bool)
    (bs : Nat) (hne : fresh ≠ arg) :
    (df_to_dataset_exec σ arg fresh sh bs).2 arg = σ arg
    ∧ ((df_to_dataset_exec σ arg fresh sh bs).2 arg).cols = (σ arg).cols
    ∧ ((df_to_dataset_exec σ arg fresh sh bs).2 arg).rows = (σ arg).rows
    ∧ (ColName.target ∈ (σ arg).cols →
        ColName.target ∈ ((df_to_dataset_exec σ arg fresh sh bs).2 arg).cols)
    ∧ (df_to_dataset_exec σ arg fresh sh bs).1 = df_to_dataset (σ arg) sh bs := by
  have hframe : (df_to_dataset_exec σ arg fresh sh bs).2 arg = σ arg := by
    simp [df_to_dataset_exec, hne.symm]
  refine ⟨hframe, by rw [hframe], by rw [hframe], fun h => by rw [hframe]; exact h, ?_⟩
  simp [df_to_dataset_exec, df_to_dataset, DataFrame.copy, DataFrame.pop]

/-- C9 witness: a concrete two-object heap. -/
theorem C9_witness :
    let df : DataFrame := ⟨[.target, .fee], [[(.target, .int 1), (.fee, .int 7)]]⟩
    let σ : Store := fun _ => df
    (df_to_dataset_exec σ 0 1 true 32).2 0 = σ 0
    ∧ ((df_to_dataset_exec σ 0 1 true 32).2 0).cols = (σ 0).cols
    ∧ ((df_to_dataset_exec σ 0 1 true 32).2 0).rows = (σ 0).rows
    ∧ (ColName.target ∈ (σ 0).cols →
        ColName.target ∈ ((df_to_dataset_exec σ 0 1 true 32).2 0).cols)
    ∧ (df_to_dataset_exec σ 0 1 true 32).1 = df_to_dataset (σ 0) true 32 := by
  exact C9_caller_frame_unchanged _ 0 1 true 32 (by decide)

/-- C10: the notebook contains no error handling: none of its statements is
a `try`/`except`, and consequently an error raised by any library call at
any point of the script propagates unchanged to the top, aborting the run
with exactly that error. -/
theorem C10_no_error_handling {St E : Type} (eff : Step → St → Except E St)
    (σ₀ σ : St) (e : E) (pre : List Stmt) (s : Step) (post : List Stmt)
    (hsplit : scriptStmts = pre ++ Stmt.step s :: post)
    (hpre : runSteps eff pre σ₀ = .ok σ) (herr : eff s σ = .error e) :
    scriptStmts.all (fun st => !st.hasTryCatch) = true
    ∧ runSteps eff scriptStmts σ₀ = .error e := by
  refine ⟨by decide, ?_⟩
  rw [hsplit]
  exact runSteps_error_propagates eff pre s post σ₀ σ e hpre herr

/-- C10 witness: an effect that fails at the training step aborts the whole
script with that error. -/
theorem C10_witness :
    let eff : Step → Nat → Except Nat Nat :=
      fun s n => if s = .fitModel then .error 7 else .ok n
    scriptStmts.all (fun st => !st.hasTryCatch) = true
    ∧ runSteps eff scriptStmts 0 = .error 7 := by
  exact C10_no_error_handling _ 0 0 7 (scriptStmts.take 37) .fitModel
    (scriptStmts.drop 38) (by decide) (by rfl) (by rfl)

end Notebook
